import Mathlib

/-!
Verification of the contact-management backend (Go / Gin / GORM).

The development shallowly embeds the repository's logic:
* `Contact.Validate`, `Contact.FormatPhoneNumbers`, `isValidEmail`,
  `isValidPhone`, `formatPhoneNumber` from `internal/models` (part_001);
* the GORM repository (`internal/repository/contact_repository.go`) as pure
  functions over an explicit database state `DB`;
* the HTTP handlers (`internal/handlers`, part_002) as pure functions from a
  repository interface, the (already bound) request data and the repository
  state to an HTTP response and a new state.

Machine integers are modelled as `Nat` (ids are GORM `uint` primary keys that
the program never overflows; `strconv.ParseUint(_, 10, 32)` is modelled with
an explicit `2^32` bound). Fallible repository calls return `Except`.
-/

/-- The set of characters Go's `unicode.IsSpace` accepts; `strings.TrimSpace`
trims exactly these (the Unicode White_Space property). -/
def isSpaceChar (c : Char) : Bool :=
  c = ' ' || c = '\t' || c = '\n' || c = '\u000B' || c = '\u000C' || c = '\r'
  || c = '\u0085' || c = ' ' || c = ' '
  || (' ' ≤ c && c ≤ ' ')
  || c = ' ' || c = ' ' || c = ' ' || c = ' ' || c = '　'

/-- Go `strings.TrimSpace`. -/
def trimSpace (s : String) : String :=
  String.mk (((s.toList.dropWhile isSpaceChar).reverse.dropWhile isSpaceChar).reverse)

/-- Characters allowed by `[a-zA-Z0-9._%+-]` (the local part of the e-mail
regex in `isValidEmail`). -/
def isLocalChar (c : Char) : Bool :=
  c.isAlpha || c.isDigit || c = '.' || c = '_' || c = '%' || c = '+' || c = '-'

/-- Characters allowed by `[a-zA-Z0-9.-]` (the domain part of the e-mail
regex in `isValidEmail`). -/
def isDomainChar (c : Char) : Bool :=
  c.isAlpha || c.isDigit || c = '.' || c = '-'

/-- Split a character list at its last `'.'`: returns the part before and the
part after that dot, or `none` when there is no dot. -/
def splitLastDot (cs : List Char) : Option (List Char × List Char) :=
  match (cs.reverse).findIdx? (fun c => c = '.') with
  | none => none
  | some j => some (cs.take (cs.length - j - 1), ((cs.reverse).take j).reverse)

/-- Matcher for the suffix `[a-zA-Z0-9.-]+\.[a-zA-Z]{2,}$` of the e-mail
regex. Because `[a-zA-Z]` contains no dot, the `\.` of any anchored match is
necessarily the last dot of the string, so matching reduces to splitting at
the last dot. -/
def domainMatches (cs : List Char) : Bool :=
  match splitLastDot cs with
  | none => false
  | some (dom, tld) =>
      !dom.isEmpty && dom.all isDomainChar && decide (2 ≤ tld.length) && tld.all Char.isAlpha

/-- `isValidEmail` from `internal/models`: anchored match of
`^[a-zA-Z0-9._%+-]+@[a-zA-Z0-9.-]+\.[a-zA-Z]{2,}$`. Neither character class
contains `'@'`, so the `@` of any match is the first `@` of the string. -/
def isValidEmail (email : String) : Bool :=
  let cs := email.toList
  match cs.findIdx? (fun c => c = '@') with
  | none => false
  | some i =>
      let loc := cs.take i
      let dom := cs.drop (i + 1)
      !loc.isEmpty && loc.all isLocalChar && !dom.contains '@' && domainMatches dom

/-- `isValidPhone` from `internal/models`: strip every non-digit (`\D`) and
require 10–15 digits to remain. -/
def isValidPhone (phone : String) : Bool :=
  let cleaned := phone.toList.filter Char.isDigit
  decide (10 ≤ cleaned.length) && decide (cleaned.length ≤ 15)

/-- `formatPhoneNumber` from `internal/models`: remove every non-digit. -/
def formatPhoneNumber (phone : String) : String :=
  String.mk (phone.toList.filter Char.isDigit)

/-- `types.Phone` (a row of the `phones` table; `gorm.Model` timestamps are
irrelevant to the claims and omitted). -/
structure Phone where
  id : Nat
  contactID : Nat
  number : String
  type_ : String
  deriving DecidableEq

/-- `types.Contact` with its preloaded `AdditionalPhones` association. -/
structure Contact where
  id : Nat
  firstName : String
  lastName : String
  email : String
  primaryPhone : String
  additionalPhones : List Phone
  deriving DecidableEq

/-- The duplicate-phone scan of `Contact.Validate`: the Go loop keys each
additional phone by `Number + "-" + Type` in a set and fails on the first
repeated key. -/
def hasDuplicatePhoneKey : List Phone → Bool
  | [] => false
  | p :: rest =>
      rest.any (fun q => (q.number ++ "-" ++ q.type_) == (p.number ++ "-" ++ p.type_))
      || hasDuplicatePhoneKey rest

/-- `(*models.Contact).Validate`: `none` means valid, `some msg` is the error
message returned. -/
def Contact.Validate (c : Contact) : Option String :=
  if trimSpace c.firstName = "" then some "first name is required"
  else if trimSpace c.lastName = "" then some "last name is required"
  else if !isValidEmail c.email then some "invalid email format"
  else if !isValidPhone c.primaryPhone then some "invalid primary phone format"
  else if hasDuplicatePhoneKey c.additionalPhones then
    some "duplicate phone numbers are not allowed"
  else none

/-- `(*models.Contact).FormatPhoneNumbers`: normalise the primary phone and
every additional phone number to digits only. -/
def Contact.FormatPhoneNumbers (c : Contact) : Contact :=
  { c with
    primaryPhone := formatPhoneNumber c.primaryPhone
    additionalPhones :=
      c.additionalPhones.map (fun p => { p with number := formatPhoneNumber p.number }) }

/-- A row of the `contacts` table. -/
structure ContactRow where
  id : Nat
  firstName : String
  lastName : String
  email : String
  primaryPhone : String
  deriving DecidableEq

/-- The relational store: the two tables and the auto-increment counters. -/
structure DB where
  contacts : List ContactRow
  phones : List Phone
  nextContactID : Nat
  nextPhoneID : Nat
  deriving DecidableEq

/-- Errors a repository call can produce: GORM's record-not-found, the
`errors.New` business errors of the repository, and any other database
failure. -/
inductive RepoErr where
  | recordNotFound
  | validationErr (msg : String)
  | dbFailure (msg : String)
  deriving DecidableEq

/-- `GormContactRepository.CheckDuplicatePhone`: does `phoneNumber` occur as
some contact's primary phone or some phone row's number, excluding the rows
of contact `excludeContactID` when that id is positive? -/
def gormCheckDuplicatePhone (db : DB) (phoneNumber : String) (excludeContactID : Nat) : Bool :=
  db.contacts.any (fun c =>
      c.primaryPhone == phoneNumber && (excludeContactID == 0 || !(c.id == excludeContactID)))
  || db.phones.any (fun p =>
      p.number == phoneNumber && (excludeContactID == 0 || !(p.contactID == excludeContactID)))

/-- Reassemble a `types.Contact` from a contact row with its
`Preload("AdditionalPhones")` association. -/
def preloadPhones (db : DB) (row : ContactRow) : Contact :=
  ⟨row.id, row.firstName, row.lastName, row.email, row.primaryPhone,
    db.phones.filter (fun p => p.contactID == row.id)⟩

/-- The insertion step of GORM's `Create`: add the contact row under a fresh
id and its additional phones under fresh ids with `ContactID` set. -/
def insertContact (db : DB) (contact : Contact) : DB :=
  let cid := db.nextContactID
  let newPhones := contact.additionalPhones.enum.map
      (fun ip => { ip.2 with id := db.nextPhoneID + ip.1, contactID := cid })
  { contacts := db.contacts ++
      [⟨cid, contact.firstName, contact.lastName, contact.email, contact.primaryPhone⟩]
    phones := db.phones ++ newPhones
    nextContactID := cid + 1
    nextPhoneID := db.nextPhoneID + newPhones.length }

/-- The contact stored by `insertContact`, as the Go `Create` leaves it in
the passed `*models.Contact` (id and phone `ContactID`s filled in). -/
def insertedContact (db : DB) (contact : Contact) : Contact :=
  { contact with
    id := db.nextContactID
    additionalPhones := contact.additionalPhones.enum.map
      (fun ip => { ip.2 with id := db.nextPhoneID + ip.1, contactID := db.nextContactID }) }

/-- `GormContactRepository.Create`: reject a primary or additional phone
already present in another contact, otherwise insert the contact and its
phones. (The real `db.Create(contact.Contact)` also auto-upserts the
populated `AdditionalPhones` association before the repository inserts the
same phones again, storing each additional phone twice; the model stores
one copy — the properties proved here do not depend on that multiplicity.) -/
def gormCreate (db : DB) (contact : Contact) : Except RepoErr Contact × DB :=
  if gormCheckDuplicatePhone db contact.primaryPhone 0 then
    (Except.error (RepoErr.validationErr "primary phone number already exists in another contact"), db)
  else if contact.additionalPhones.any (fun p => gormCheckDuplicatePhone db p.number 0) then
    (Except.error (RepoErr.validationErr "additional phone number already exists in another contact"), db)
  else
    (Except.ok (insertedContact db contact), insertContact db contact)

/-- `GormContactRepository.FindByID`: `First` with preloaded phones;
GORM returns `ErrRecordNotFound` when no row has the id. -/
def gormFindByID (db : DB) (id : Nat) : Except RepoErr Contact × DB :=
  match db.contacts.find? (fun c => c.id == id) with
  | none => (Except.error RepoErr.recordNotFound, db)
  | some row => (Except.ok (preloadPhones db row), db)

/-- `GormContactRepository.FindByEmail`: first contact whose email matches,
with preloaded phones. -/
def gormFindByEmail (db : DB) (email : String) : Except RepoErr Contact × DB :=
  match db.contacts.find? (fun c => c.email == email) with
  | none => (Except.error RepoErr.recordNotFound, db)
  | some row => (Except.ok (preloadPhones db row), db)

/-- `GormContactRepository.Update`: duplicate-phone checks excluding the
contact's own rows, then `Save` the row, hard-delete the old phone rows of
the contact and insert the new ones under fresh ids. -/
def gormUpdate (db : DB) (contact : Contact) : Except RepoErr Contact × DB :=
  if gormCheckDuplicatePhone db contact.primaryPhone contact.id then
    (Except.error (RepoErr.validationErr "primary phone number already exists in another contact"), db)
  else if contact.additionalPhones.any (fun p => gormCheckDuplicatePhone db p.number contact.id) then
    (Except.error (RepoErr.validationErr "additional phone number already exists in another contact"), db)
  else
    let row : ContactRow :=
      ⟨contact.id, contact.firstName, contact.lastName, contact.email, contact.primaryPhone⟩
    let newPhones := contact.additionalPhones.enum.map
        (fun ip => { ip.2 with id := db.nextPhoneID + ip.1, contactID := contact.id })
    (Except.ok { contact with additionalPhones := newPhones },
      { contacts := db.contacts.map (fun c => if c.id == contact.id then row else c)
        phones := db.phones.filter (fun p => !(p.contactID == contact.id)) ++ newPhones
        nextContactID := db.nextContactID
        nextPhoneID := db.nextPhoneID + newPhones.length })

/-- `GormContactRepository.Delete`: `Unscoped` (hard) delete of the phone
rows with this `contact_id`, then of the contact row with this primary key;
rows are removed outright, not marked. -/
def gormDelete (db : DB) (id : Nat) : Except RepoErr Unit × DB :=
  (Except.ok (),
    { db with
      phones := db.phones.filter (fun p => !(p.contactID == id))
      contacts := db.contacts.filter (fun c => !(c.id == id)) })

/-- `GormContactRepository.List`: all contacts with preloaded phones. -/
def gormList (db : DB) : Except RepoErr (List Contact) × DB :=
  (Except.ok (db.contacts.map (preloadPhones db)), db)

/-- The same e-mail appearing twice within one batch of contacts. -/
def hasDupEmail : List Contact → Bool
  | [] => false
  | c :: rest => rest.any (fun c2 => c2.email == c.email) || hasDupEmail rest

/-- E-mails that make the batch INSERT violate the `unique` constraint on
`contacts.email` (set up by `AutoMigrate`): a batch e-mail already present
in the table, or the same e-mail twice within the batch. -/
def batchEmailClash (db : DB) (contacts : List Contact) : Bool :=
  contacts.any (fun c => db.contacts.any (fun r => r.email == c.email)) || hasDupEmail contacts

/-- `GormContactRepository.ImportContacts`: a single `db.Create` on the
slice. GORM rejects an empty slice (`ErrEmptySlice`), and the one batch
INSERT fails on the unique e-mail constraint — the import path never checks
duplicates — leaving the table unchanged; otherwise every contact of the
batch is inserted. -/
def gormImportContacts (db : DB) (contacts : List Contact) : Except RepoErr Unit × DB :=
  if contacts.isEmpty then
    (Except.error (RepoErr.dbFailure "empty slice found"), db)
  else if batchEmailClash db contacts then
    (Except.error (RepoErr.dbFailure "duplicate key value violates unique constraint"), db)
  else
    (Except.ok (), contacts.foldl insertContact db)

/-- The `repository.ContactRepository` interface the handlers are written
against, over an abstract repository state `σ`. `create` and `update` return
the contact as the Go methods leave it in the passed pointer. -/
structure ContactRepository (σ : Type) where
  create : Contact → σ → Except RepoErr Contact × σ
  findByID : Nat → σ → Except RepoErr Contact × σ
  update : Contact → σ → Except RepoErr Contact × σ
  delete : Nat → σ → Except RepoErr Unit × σ
  list : σ → Except RepoErr (List Contact) × σ
  findByEmail : String → σ → Except RepoErr Contact × σ
  importContacts : List Contact → σ → Except RepoErr Unit × σ

/-- `NewContactRepository` instantiated with the GORM implementation. -/
def gormRepo : ContactRepository DB where
  create := fun c db => gormCreate db c
  findByID := fun id db => gormFindByID db id
  update := fun c db => gormUpdate db c
  delete := fun id db => gormDelete db id
  list := fun db => gormList db
  findByEmail := fun e db => gormFindByEmail db e
  importContacts := fun cs db => gormImportContacts db cs

/-- `types.CreateContactRequest`, the bound JSON body of create and update. -/
structure CreateContactRequest where
  firstName : String
  lastName : String
  email : String
  primaryPhone : String
  additionalPhones : List Phone
  deriving DecidableEq

/-- `types.CSVContact`, one parsed CSV row. -/
structure CSVContact where
  firstName : String
  lastName : String
  email : String
  primaryPhone : String
  deriving DecidableEq

/-- The body of a handler response: an error/info message object, a contact,
a contact list, or the import summary `{message, imported}`. -/
inductive ResponseBody where
  | message (s : String)
  | contact (c : Contact)
  | contacts (cs : List Contact)
  | imported (msg : String) (count : Nat)
  deriving DecidableEq

/-- An HTTP response: status code and JSON body. -/
structure HttpResponse where
  status : Nat
  body : ResponseBody
  deriving DecidableEq

/-- `strconv.ParseUint(s, 10, 32)`: a nonempty all-digit string whose value
fits in 32 bits. -/
def parseUint (s : String) : Option Nat :=
  let cs := s.toList
  if cs.isEmpty then none
  else if cs.all Char.isDigit then
    let n := cs.foldl (fun acc c => acc * 10 + (c.toNat - '0'.toNat)) 0
    if n < 2 ^ 32 then some n else none
  else none

/-- The `types.Contact` a create request is copied into (a fresh record, id
not yet assigned). -/
def contactOfReq (req : CreateContactRequest) : Contact :=
  ⟨0, req.firstName, req.lastName, req.email, req.primaryPhone, req.additionalPhones⟩

/-- The field copy of `UpdateContact`: overwrite the existing contact's
fields with the request's. -/
def applyRequest (c : Contact) (req : CreateContactRequest) : Contact :=
  { c with
    firstName := req.firstName
    lastName := req.lastName
    email := req.email
    primaryPhone := req.primaryPhone
    additionalPhones := req.additionalPhones }

/-- The duplicate-email test of `UpdateContact`: `err == nil &&
emailContact != nil && emailContact.ID != existingContact.ID`. -/
def emailConflict (res : Except RepoErr Contact) (selfID : Nat) : Bool :=
  match res with
  | Except.ok ec => !(ec.id == selfID)
  | Except.error _ => false

/-- `ContactHandler.CreateContact`. `body = none` stands for a JSON-binding
failure (whose 400 carries the binder's error text). -/
def CreateContact {σ : Type} (repo : ContactRepository σ) (body : Option CreateContactRequest)
    (s : σ) : HttpResponse × σ :=
  match body with
  | none => (⟨400, ResponseBody.message "binding error"⟩, s)
  | some req =>
    let contact := contactOfReq req
    match contact.Validate with
    | some msg => (⟨400, ResponseBody.message msg⟩, s)
    | none =>
      let contact := contact.FormatPhoneNumbers
      let fe := repo.findByEmail req.email s
      match fe.1 with
      | Except.ok _ => (⟨409, ResponseBody.message "Email already exists"⟩, fe.2)
      | Except.error _ =>
        let cr := repo.create contact fe.2
        match cr.1 with
        | Except.error _ => (⟨500, ResponseBody.message "Failed to create contact"⟩, cr.2)
        | Except.ok stored => (⟨201, ResponseBody.contact stored⟩, cr.2)

/-- `ContactHandler.ListContacts`. -/
def ListContacts {σ : Type} (repo : ContactRepository σ) (s : σ) : HttpResponse × σ :=
  let ls := repo.list s
  match ls.1 with
  | Except.error _ => (⟨500, ResponseBody.message "Failed to fetch contacts"⟩, ls.2)
  | Except.ok cs => (⟨200, ResponseBody.contacts cs⟩, ls.2)

/-- `ContactHandler.GetContact`: any error from `FindByID` — not only
record-not-found — is answered with 404. -/
def GetContact {σ : Type} (repo : ContactRepository σ) (idParam : String) (s : σ) :
    HttpResponse × σ :=
  match parseUint idParam with
  | none => (⟨400, ResponseBody.message "Invalid ID format"⟩, s)
  | some id =>
    let fr := repo.findByID id s
    match fr.1 with
    | Except.error _ => (⟨404, ResponseBody.message "Contact not found"⟩, fr.2)
    | Except.ok contact => (⟨200, ResponseBody.contact contact⟩, fr.2)

/-- `ContactHandler.UpdateContact`. -/
def UpdateContact {σ : Type} (repo : ContactRepository σ) (idParam : String)
    (body : Option CreateContactRequest) (s : σ) : HttpResponse × σ :=
  match parseUint idParam with
  | none => (⟨400, ResponseBody.message "Invalid ID format"⟩, s)
  | some id =>
    match body with
    | none => (⟨400, ResponseBody.message "binding error"⟩, s)
    | some req =>
      let fr := repo.findByID id s
      match fr.1 with
      | Except.error _ => (⟨404, ResponseBody.message "Contact not found"⟩, fr.2)
      | Except.ok existing =>
        let updated := applyRequest existing req
        match updated.Validate with
        | some msg => (⟨400, ResponseBody.message msg⟩, fr.2)
        | none =>
          let updated := updated.FormatPhoneNumbers
          let fe := repo.findByEmail req.email fr.2
          if emailConflict fe.1 updated.id then
            (⟨409, ResponseBody.message "Email already exists"⟩, fe.2)
          else
            let up := repo.update updated fe.2
            match up.1 with
            | Except.error _ => (⟨500, ResponseBody.message "Failed to update contact"⟩, up.2)
            | Except.ok stored => (⟨200, ResponseBody.contact stored⟩, up.2)

/-- `ContactHandler.DeleteContact`. -/
def DeleteContact {σ : Type} (repo : ContactRepository σ) (idParam : String) (s : σ) :
    HttpResponse × σ :=
  match parseUint idParam with
  | none => (⟨400, ResponseBody.message "Invalid ID format"⟩, s)
  | some id =>
    let fr := repo.findByID id s
    match fr.1 with
    | Except.error _ => (⟨404, ResponseBody.message "Contact not found"⟩, fr.2)
    | Except.ok _ =>
      let dl := repo.delete id fr.2
      match dl.1 with
      | Except.error _ => (⟨500, ResponseBody.message "Failed to delete contact"⟩, dl.2)
      | Except.ok _ => (⟨200, ResponseBody.message "Contact deleted successfully"⟩, dl.2)

/-- The `types.Contact` built from a CSV row (no additional phones in the
CSV format). -/
def csvToContact (r : CSVContact) : Contact :=
  ⟨0, r.firstName, r.lastName, r.email, r.primaryPhone, []⟩

/-- The row loop of `ContactHandler.ImportContacts`: keep, formatted, every
row whose contact validates; silently drop the rest. -/
def processCSVRows (rows : List CSVContact) : List Contact :=
  rows.filterMap (fun r =>
    match (csvToContact r).Validate with
    | some _ => none
    | none => some (csvToContact r).FormatPhoneNumbers)

/-- `ContactHandler.ImportContacts`, from the point where the CSV is parsed:
`parsed = none` stands for the 400 parse failure; the earlier 400/500 gates
(no file, non-`.csv` name, unreadable file) precede this model. -/
def ImportContacts {σ : Type} (repo : ContactRepository σ) (parsed : Option (List CSVContact))
    (s : σ) : HttpResponse × σ :=
  match parsed with
  | none => (⟨400, ResponseBody.message "Failed to parse CSV file"⟩, s)
  | some rows =>
    let contactsToImport := processCSVRows rows
    let im := repo.importContacts contactsToImport s
    match im.1 with
    | Except.error _ => (⟨500, ResponseBody.message "Failed to import contacts"⟩, im.2)
    | Except.ok _ =>
        (⟨200, ResponseBody.imported "Import completed" contactsToImport.length⟩, im.2)

/-- The four data fields of a contact row (id projected away). -/
def contactRowData (r : ContactRow) : String × String × String × String :=
  (r.firstName, r.lastName, r.email, r.primaryPhone)

/-- The four scalar data fields of a contact. -/
def contactData (c : Contact) : String × String × String × String :=
  (c.firstName, c.lastName, c.email, c.primaryPhone)

/-- The validated-and-normalised shape of a stored contact row: non-blank
names, e-mail matching the validation regex, and a digits-only primary phone
of 10 to 15 digits. -/
def goodContactRow (r : ContactRow) : Prop :=
  trimSpace r.firstName ≠ "" ∧ trimSpace r.lastName ≠ "" ∧
  isValidEmail r.email = true ∧
  r.primaryPhone.toList.all Char.isDigit = true ∧
  10 ≤ r.primaryPhone.length ∧ r.primaryPhone.length ≤ 15

/-- A stored phone row whose number is digits only. -/
def digitsOnlyPhone (p : Phone) : Prop :=
  p.number.toList.all Char.isDigit = true

/-- A repository stub whose every operation fails with a database failure,
to exercise the handlers' error mapping. -/
def failingRepo : ContactRepository Unit where
  create := fun _ s => (Except.error (RepoErr.dbFailure "connection refused"), s)
  findByID := fun _ s => (Except.error (RepoErr.dbFailure "connection refused"), s)
  update := fun _ s => (Except.error (RepoErr.dbFailure "connection refused"), s)
  delete := fun _ s => (Except.error (RepoErr.dbFailure "connection refused"), s)
  list := fun s => (Except.error (RepoErr.dbFailure "connection refused"), s)
  findByEmail := fun _ s => (Except.error (RepoErr.dbFailure "connection refused"), s)
  importContacts := fun _ s => (Except.error (RepoErr.dbFailure "connection refused"), s)

/-- A repository stub whose by-id lookup succeeds (and whose by-e-mail
lookup finds nothing) but whose writes and list fail with a database
failure. -/
def brokenWriteRepo : ContactRepository Unit where
  create := fun _ s => (Except.error (RepoErr.dbFailure "disk full"), s)
  findByID := fun _ s => (Except.ok ⟨1, "A", "B", "a@x.com", "1111111111", []⟩, s)
  update := fun _ s => (Except.error (RepoErr.dbFailure "disk full"), s)
  delete := fun _ s => (Except.error (RepoErr.dbFailure "disk full"), s)
  list := fun s => (Except.error (RepoErr.dbFailure "disk full"), s)
  findByEmail := fun _ s => (Except.error RepoErr.recordNotFound, s)
  importContacts := fun _ s => (Except.error (RepoErr.dbFailure "disk full"), s)

/-! ### Helper lemmas -/

theorem validate_eq_none_iff (c : Contact) :
    Contact.Validate c = none ↔
      ¬ trimSpace c.firstName = "" ∧ ¬ trimSpace c.lastName = "" ∧
      isValidEmail c.email = true ∧ isValidPhone c.primaryPhone = true ∧
      hasDuplicatePhoneKey c.additionalPhones = false := by
  unfold Contact.Validate
  split_ifs <;> simp_all

theorem validate_isSome_of_email_invalid (c : Contact) (h : isValidEmail c.email = false) :
    (Contact.Validate c).isSome = true := by
  rw [Option.isSome_iff_ne_none]
  intro hnone
  rw [validate_eq_none_iff] at hnone
  simp [h] at hnone

theorem validate_isSome_of_phone_invalid (c : Contact) (h : isValidPhone c.primaryPhone = false) :
    (Contact.Validate c).isSome = true := by
  rw [Option.isSome_iff_ne_none]
  intro hnone
  rw [validate_eq_none_iff] at hnone
  simp [h] at hnone

theorem validate_isSome_of_dup (c : Contact)
    (h : hasDuplicatePhoneKey c.additionalPhones = true) :
    (Contact.Validate c).isSome = true := by
  rw [Option.isSome_iff_ne_none]
  intro hnone
  rw [validate_eq_none_iff] at hnone
  simp [h] at hnone

theorem isValidEmail_false_of_no_at (email : String) (h : ¬ '@' ∈ email.toList) :
    isValidEmail email = false := by
  unfold isValidEmail
  have : email.data.findIdx? (fun c => c = '@') = none := by
    rw [List.findIdx?_eq_none_iff]
    intro x hx
    simp only [decide_eq_false_iff_not]
    intro heq
    exact h (heq ▸ hx)
  simp [isValidEmail, this]

theorem gormFindByEmail_not_found (db : DB) (e : String)
    (h : ∀ c ∈ db.contacts, ¬ c.email = e) :
    gormFindByEmail db e = (Except.error RepoErr.recordNotFound, db) := by
  have hf : db.contacts.find? (fun c => c.email == e) = none :=
    List.find?_eq_none.mpr (by intro x hx; simpa using h x hx)
  unfold gormFindByEmail
  rw [hf]

/-! ### C4 -/

/-- C4: `POST /api/contacts` returns 201 when the body binds, field
validation passes and no duplicate e-mail or phone exists; 400 whenever
binding or field validation fails; and 409 whenever (validation having
passed) a contact with the same e-mail already exists. -/
theorem c4_create_statuses (db : DB) (req : CreateContactRequest) :
    ((CreateContact gormRepo none db).1.status = 400) ∧
    (∀ msg, (contactOfReq req).Validate = some msg →
      (CreateContact gormRepo (some req) db).1 = ⟨400, ResponseBody.message msg⟩) ∧
    ((contactOfReq req).Validate = none →
      (∃ row ∈ db.contacts, row.email = req.email) →
      (CreateContact gormRepo (some req) db).1 =
        ⟨409, ResponseBody.message "Email already exists"⟩) ∧
    ((contactOfReq req).Validate = none →
      (∀ row ∈ db.contacts, ¬ row.email = req.email) →
      gormCheckDuplicatePhone db (formatPhoneNumber req.primaryPhone) 0 = false →
      ((contactOfReq req).FormatPhoneNumbers).additionalPhones.any
        (fun p => gormCheckDuplicatePhone db p.number 0) = false →
      (CreateContact gormRepo (some req) db).1.status = 201) := by
  refine ⟨rfl, ?_, ?_, ?_⟩
  · intro msg hval
    simp [CreateContact, hval]
  · intro hval hex
    have hs : (db.contacts.find? (fun c => c.email == req.email)).isSome := by
      rw [List.find?_isSome]
      obtain ⟨row, hrow, he⟩ := hex
      exact ⟨row, hrow, by simp [he]⟩
    obtain ⟨r0, hr0⟩ := Option.isSome_iff_exists.mp hs
    simp [CreateContact, hval, gormRepo, gormFindByEmail, hr0]
  · intro hval hemail hp ha
    have hfe := gormFindByEmail_not_found db req.email hemail
    have hpp : ((contactOfReq req).FormatPhoneNumbers).primaryPhone =
        formatPhoneNumber req.primaryPhone := rfl
    have ha' : ¬ ∃ x ∈ (contactOfReq req).FormatPhoneNumbers.additionalPhones,
        gormCheckDuplicatePhone db x.number 0 = true := by
      rw [← List.any_eq_true]
      simp [ha]
    simp [CreateContact, hval, gormRepo, hfe, gormCreate, hpp, hp, ha']

/-- Witness for C4: a 201, a 400 and a 409 case at concrete inputs. -/
theorem c4_create_statuses_witness :
    (CreateContact gormRepo
      (some ⟨"John", "Doe", "j@x.com", "2223334444", []⟩)
      (DB.mk [⟨1, "A", "B", "a@x.com", "1111111111"⟩] [] 2 1)).1.status = 201 ∧
    (CreateContact gormRepo
      (some ⟨" ", "Doe", "j@x.com", "2223334444", []⟩)
      (DB.mk [⟨1, "A", "B", "a@x.com", "1111111111"⟩] [] 2 1)).1 =
        ⟨400, ResponseBody.message "first name is required"⟩ ∧
    (CreateContact gormRepo
      (some ⟨"John", "Doe", "a@x.com", "2223334444", []⟩)
      (DB.mk [⟨1, "A", "B", "a@x.com", "1111111111"⟩] [] 2 1)).1 =
        ⟨409, ResponseBody.message "Email already exists"⟩ :=
  ⟨(c4_create_statuses _ _).2.2.2 (by decide) (by decide) (by decide) (by decide),
   (c4_create_statuses _ _).2.1 _ (by decide),
   (c4_create_statuses _ _).2.2.1 (by decide) (by decide)⟩

/-! ### C7 -/

/-- C7: for a well-formed numeric id, `GET /api/contacts/:id` over the GORM
repository returns 404 exactly when no contact with that id exists, and
otherwise 200 with the contact and its preloaded additional phones. -/
theorem c7_get_contact (db : DB) (idParam : String) (id : Nat)
    (hid : parseUint idParam = some id) :
    ((GetContact gormRepo idParam db).1.status = 404 ↔
      db.contacts.find? (fun c => c.id == id) = none) ∧
    (∀ row, db.contacts.find? (fun c => c.id == id) = some row →
      (GetContact gormRepo idParam db).1 =
        ⟨200, ResponseBody.contact (preloadPhones db row)⟩) := by
  constructor
  · constructor
    · intro h404
      cases hf : db.contacts.find? (fun c => c.id == id) with
      | none => rfl
      | some row => simp [GetContact, hid, gormRepo, gormFindByID, hf] at h404
    · intro hf
      simp [GetContact, hid, gormRepo, gormFindByID, hf]
  · intro row hf
    simp [GetContact, hid, gormRepo, gormFindByID, hf]

/-- Witness for C7: a missing id answers 404, a present one 200 with the
nested phones. -/
theorem c7_get_contact_witness :
    (GetContact gormRepo "2"
      (DB.mk [⟨1, "A", "B", "a@x.com", "1111111111"⟩] [⟨1, 1, "2223334444", "home"⟩] 2 2)).1.status
      = 404 ∧
    (GetContact gormRepo "1"
      (DB.mk [⟨1, "A", "B", "a@x.com", "1111111111"⟩] [⟨1, 1, "2223334444", "home"⟩] 2 2)).1 =
      ⟨200, ResponseBody.contact
        ⟨1, "A", "B", "a@x.com", "1111111111", [⟨1, 1, "2223334444", "home"⟩]⟩⟩ :=
  ⟨(c7_get_contact _ "2" 2 (by decide)).1.mpr (by decide),
   (c7_get_contact _ "1" 1 (by decide)).2 ⟨1, "A", "B", "a@x.com", "1111111111"⟩ (by decide)⟩

/-! ### C6 -/

/-- C6: `DELETE /api/contacts/:id` on an existing contact responds 200 and
leaves exactly the contact rows whose id differs and the phone rows whose
contact_id differs: the contact and all its phone rows are removed outright
(`Unscoped`, hard delete), and every other row is unchanged. -/
theorem c6_delete_contact (db : DB) (idParam : String) (id : Nat)
    (hid : parseUint idParam = some id)
    (row : ContactRow) (hf : db.contacts.find? (fun c => c.id == id) = some row) :
    DeleteContact gormRepo idParam db =
      (⟨200, ResponseBody.message "Contact deleted successfully"⟩,
        { db with
          contacts := db.contacts.filter (fun c => !(c.id == id))
          phones := db.phones.filter (fun p => !(p.contactID == id)) }) := by
  simp [DeleteContact, hid, gormRepo, gormFindByID, hf, gormDelete]

/-- Witness for C6: deleting contact 1 removes its row and its two phone
rows and keeps contact 2 and its phone row. -/
theorem c6_delete_contact_witness :
    DeleteContact gormRepo "1"
      (DB.mk [⟨1, "A", "B", "a@x.com", "1111111111"⟩, ⟨2, "C", "D", "c@x.com", "2222222222"⟩]
        [⟨1, 1, "3333333333", "home"⟩, ⟨2, 2, "4444444444", "work"⟩, ⟨3, 1, "5555555555", "work"⟩]
        3 4) =
      (⟨200, ResponseBody.message "Contact deleted successfully"⟩,
        DB.mk [⟨2, "C", "D", "c@x.com", "2222222222"⟩] [⟨2, 2, "4444444444", "work"⟩] 3 4) :=
  c6_delete_contact _ "1" 1 (by decide) ⟨1, "A", "B", "a@x.com", "1111111111"⟩ (by decide)

/-! ### C2 -/

theorem processCSVRows_eq_filter (rows : List CSVContact) :
    processCSVRows rows =
      (rows.filter (fun r => ((csvToContact r).Validate).isNone)).map
        (fun r => (csvToContact r).FormatPhoneNumbers) := by
  induction rows with
  | nil => rfl
  | cons r rest ih =>
      unfold processCSVRows at *
      rw [List.filterMap_cons, List.filter_cons]
      cases h : (csvToContact r).Validate with
      | some msg => simp [h, ih]
      | none => simp [h, ih]

theorem foldl_insertContact_contacts (cs : List Contact) (db : DB) :
    ((cs.foldl insertContact db).contacts).map contactRowData =
      db.contacts.map contactRowData ++ cs.map contactData := by
  induction cs generalizing db with
  | nil => simp
  | cons c rest ih =>
      rw [List.foldl_cons, ih]
      simp [insertContact, contactRowData, contactData]

/-- C2 counterexample: the import can abort. A CSV whose two rows both pass
validation but share one e-mail makes the single batch INSERT violate the
unique e-mail constraint: the endpoint answers 500 and persists nothing,
although two rows passed validation. A CSV whose only row fails validation
leaves an empty batch, which GORM rejects, so the response is 500 rather
than 200 with `imported = 0`. -/
theorem c2_counterexample :
    (processCSVRows [⟨"John", "Doe", "j@x.com", "1112223333"⟩,
        ⟨"Jane", "Doe", "j@x.com", "4445556666"⟩]).length = 2 ∧
    (ImportContacts gormRepo (some [⟨"John", "Doe", "j@x.com", "1112223333"⟩,
        ⟨"Jane", "Doe", "j@x.com", "4445556666"⟩]) (DB.mk [] [] 1 1)).1 =
      ⟨500, ResponseBody.message "Failed to import contacts"⟩ ∧
    (ImportContacts gormRepo (some [⟨"John", "Doe", "j@x.com", "1112223333"⟩,
        ⟨"Jane", "Doe", "j@x.com", "4445556666"⟩]) (DB.mk [] [] 1 1)).2 = DB.mk [] [] 1 1 ∧
    (ImportContacts gormRepo (some [⟨"J", "D", "noat", "1234567890"⟩])
      (DB.mk [] [] 1 1)).1 = ⟨500, ResponseBody.message "Failed to import contacts"⟩ :=
  ⟨by decide, by decide, by decide, by decide⟩

/-- C2 amended: rows failing validation are dropped without a per-row error;
when at least one row passes validation and the passing rows' e-mails
neither repeat within the batch nor already exist in the store, the import
answers 200 with `imported` equal to the number of passing rows and
persists exactly those rows (formatted, in order); otherwise — no passing
row, or an e-mail collision — the single batch insert fails, the endpoint
answers 500 and nothing is persisted. -/
theorem c2_amended (db : DB) (rows : List CSVContact) :
    ((processCSVRows rows).isEmpty = false →
      batchEmailClash db (processCSVRows rows) = false →
      (ImportContacts gormRepo (some rows) db).1 =
        ⟨200, ResponseBody.imported "Import completed"
          (rows.filter (fun r => ((csvToContact r).Validate).isNone)).length⟩ ∧
      ((ImportContacts gormRepo (some rows) db).2.contacts).map contactRowData =
        db.contacts.map contactRowData ++
          (rows.filter (fun r => ((csvToContact r).Validate).isNone)).map
            (fun r => contactData ((csvToContact r).FormatPhoneNumbers))) ∧
    ((processCSVRows rows).isEmpty = true ∨
        batchEmailClash db (processCSVRows rows) = true →
      (ImportContacts gormRepo (some rows) db).1 =
        ⟨500, ResponseBody.message "Failed to import contacts"⟩ ∧
      (ImportContacts gormRepo (some rows) db).2 = db) := by
  constructor
  · intro h0 h1
    have himp : gormImportContacts db (processCSVRows rows) =
        (Except.ok (), (processCSVRows rows).foldl insertContact db) := by
      unfold gormImportContacts
      rw [h0, h1]
      simp
    have hred : ImportContacts gormRepo (some rows) db =
        (⟨200, ResponseBody.imported "Import completed" (processCSVRows rows).length⟩,
          (processCSVRows rows).foldl insertContact db) := by
      simp only [ImportContacts, gormRepo]
      rw [himp]
    rw [hred]
    constructor
    · simp [processCSVRows_eq_filter]
    · simp [processCSVRows_eq_filter, foldl_insertContact_contacts, List.map_map]
  · intro h
    by_cases h0 : (processCSVRows rows).isEmpty = true
    · have himp : gormImportContacts db (processCSVRows rows) =
          (Except.error (RepoErr.dbFailure "empty slice found"), db) := by
        unfold gormImportContacts
        rw [h0]
        simp
      have hred : ImportContacts gormRepo (some rows) db =
          (⟨500, ResponseBody.message "Failed to import contacts"⟩, db) := by
        simp only [ImportContacts, gormRepo]
        rw [himp]
      rw [hred]
      exact ⟨rfl, rfl⟩
    · have h0' : (processCSVRows rows).isEmpty = false := by
        simpa using h0
      have h1 : batchEmailClash db (processCSVRows rows) = true := by
        rcases h with h | h
        · exact absurd h h0
        · exact h
      have himp : gormImportContacts db (processCSVRows rows) =
          (Except.error (RepoErr.dbFailure "duplicate key value violates unique constraint"),
            db) := by
        unfold gormImportContacts
        rw [h0', h1]
        simp
      have hred : ImportContacts gormRepo (some rows) db =
          (⟨500, ResponseBody.message "Failed to import contacts"⟩, db) := by
        simp only [ImportContacts, gormRepo]
        rw [himp]
      rw [hred]
      exact ⟨rfl, rfl⟩

/-- Witness for C2 amended: a clean two-row CSV (one invalid row skipped)
imports one contact with 200, and an all-invalid CSV answers 500 leaving
the store unchanged. -/
theorem c2_amended_witness :
    (ImportContacts gormRepo
      (some [⟨"John", "Doe", "j@x.com", "1112223333"⟩, ⟨"J", "D", "noat", "1234567890"⟩])
      (DB.mk [] [] 1 1)).1 = ⟨200, ResponseBody.imported "Import completed" 1⟩ ∧
    (ImportContacts gormRepo (some [⟨"J", "D", "noat", "1234567890"⟩])
      (DB.mk [] [] 1 1)).2 = DB.mk [] [] 1 1 :=
  ⟨((c2_amended (DB.mk [] [] 1 1)
      [⟨"John", "Doe", "j@x.com", "1112223333"⟩, ⟨"J", "D", "noat", "1234567890"⟩]).1
      (by decide) (by decide)).1,
   ((c2_amended (DB.mk [] [] 1 1) [⟨"J", "D", "noat", "1234567890"⟩]).2
      (Or.inl (by decide))).2⟩

/-! ### C1 -/

theorem gormFindByEmail_snd (db : DB) (e : String) : (gormFindByEmail db e).2 = db := by
  unfold gormFindByEmail
  split <;> rfl

theorem gormFindByID_snd (db : DB) (id : Nat) : (gormFindByID db id).2 = db := by
  unfold gormFindByID
  split <;> rfl

theorem gormCreate_error_of_dup (db : DB) (c : Contact)
    (h : gormCheckDuplicatePhone db c.primaryPhone 0 = true ∨
      (gormCheckDuplicatePhone db c.primaryPhone 0 = false ∧
        c.additionalPhones.any (fun p => gormCheckDuplicatePhone db p.number 0) = true)) :
    ∃ msg, gormCreate db c = (Except.error (RepoErr.validationErr msg), db) := by
  rcases h with h1 | ⟨h1, h2⟩
  · exact ⟨"primary phone number already exists in another contact", by simp [gormCreate, h1]⟩
  · exact ⟨"additional phone number already exists in another contact",
      by simp [gormCreate, h1, h2]⟩

theorem gormUpdate_error_of_dup (db : DB) (c : Contact)
    (h : gormCheckDuplicatePhone db c.primaryPhone c.id = true ∨
      (gormCheckDuplicatePhone db c.primaryPhone c.id = false ∧
        c.additionalPhones.any (fun p => gormCheckDuplicatePhone db p.number c.id) = true)) :
    ∃ msg, gormUpdate db c = (Except.error (RepoErr.validationErr msg), db) := by
  rcases h with h1 | ⟨h1, h2⟩
  · exact ⟨"primary phone number already exists in another contact", by simp [gormUpdate, h1]⟩
  · exact ⟨"additional phone number already exists in another contact",
      by simp [gormUpdate, h1, h2]⟩

/-- C1 counterexample: with contact 1 already owning primary phone
`"1234567890"`, a create request that passes field validation and carries
that same phone under a fresh e-mail is answered 500 — neither 400 nor 409. -/
theorem c1_counterexample :
    Contact.Validate (contactOfReq ⟨"John", "Doe", "b@x.com", "1234567890", []⟩) = none ∧
    gormCheckDuplicatePhone (DB.mk [⟨1, "A", "B", "a@x.com", "1234567890"⟩] [] 2 1)
      "1234567890" 0 = true ∧
    (CreateContact gormRepo (some ⟨"John", "Doe", "b@x.com", "1234567890", []⟩)
      (DB.mk [⟨1, "A", "B", "a@x.com", "1234567890"⟩] [] 2 1)).1 =
      ⟨500, ResponseBody.message "Failed to create contact"⟩ :=
  ⟨by decide, by decide, by decide⟩

/-- C1 amended: a create or update request that passes field validation but
carries a phone number (primary or additional, after normalisation) already
belonging to another contact is answered 500 with the generic failure
message — the handlers do not translate the duplicate-phone repository error
to 400/409. -/
theorem c1_amended (db : DB) (req : CreateContactRequest) :
    ((contactOfReq req).Validate = none →
      (∀ row ∈ db.contacts, ¬ row.email = req.email) →
      (gormCheckDuplicatePhone db ((contactOfReq req).FormatPhoneNumbers).primaryPhone 0 = true ∨
        (gormCheckDuplicatePhone db ((contactOfReq req).FormatPhoneNumbers).primaryPhone 0 = false ∧
          ((contactOfReq req).FormatPhoneNumbers).additionalPhones.any
            (fun p => gormCheckDuplicatePhone db p.number 0) = true)) →
      (CreateContact gormRepo (some req) db).1 =
        ⟨500, ResponseBody.message "Failed to create contact"⟩) ∧
    (∀ idParam id row,
      parseUint idParam = some id →
      db.contacts.find? (fun c => c.id == id) = some row →
      (applyRequest (preloadPhones db row) req).Validate = none →
      emailConflict (gormFindByEmail db req.email).1 row.id = false →
      (gormCheckDuplicatePhone db
          (((applyRequest (preloadPhones db row) req).FormatPhoneNumbers).primaryPhone)
          row.id = true ∨
        (gormCheckDuplicatePhone db
            (((applyRequest (preloadPhones db row) req).FormatPhoneNumbers).primaryPhone)
            row.id = false ∧
          ((applyRequest (preloadPhones db row) req).FormatPhoneNumbers).additionalPhones.any
            (fun p => gormCheckDuplicatePhone db p.number row.id) = true)) →
      (UpdateContact gormRepo idParam (some req) db).1 =
        ⟨500, ResponseBody.message "Failed to update contact"⟩) := by
  constructor
  · intro hval hemail hdup
    have hfe := gormFindByEmail_not_found db req.email hemail
    obtain ⟨msg, herr⟩ := gormCreate_error_of_dup db ((contactOfReq req).FormatPhoneNumbers) hdup
    simp [CreateContact, hval, gormRepo, hfe, herr]
  · intro idParam id row hid hf hval hec hdup
    have hcid : ((applyRequest (preloadPhones db row) req).FormatPhoneNumbers).id = row.id := rfl
    obtain ⟨msg, herr⟩ := gormUpdate_error_of_dup db
      ((applyRequest (preloadPhones db row) req).FormatPhoneNumbers) (by rw [hcid]; exact hdup)
    simp [UpdateContact, hid, gormRepo, gormFindByID, hf, hval, hcid, hec,
      gormFindByEmail_snd, herr]

/-- Witness for C1 amended: a concrete duplicate-phone create and a concrete
duplicate-phone update both answer 500. -/
theorem c1_amended_witness :
    (CreateContact gormRepo (some ⟨"John", "Doe", "b@x.com", "123-456-7890", []⟩)
      (DB.mk [⟨1, "A", "B", "a@x.com", "1234567890"⟩] [] 2 1)).1 =
      ⟨500, ResponseBody.message "Failed to create contact"⟩ ∧
    (UpdateContact gormRepo "1" (some ⟨"A", "B", "a@x.com", "2223334444", []⟩)
      (DB.mk [⟨1, "A", "B", "a@x.com", "1111111111"⟩, ⟨2, "C", "D", "c@x.com", "2223334444"⟩]
        [] 3 1)).1 =
      ⟨500, ResponseBody.message "Failed to update contact"⟩ :=
  ⟨(c1_amended _ _).1 (by decide) (by decide) (Or.inl (by decide)),
   (c1_amended _ _).2 "1" 1 ⟨1, "A", "B", "a@x.com", "1111111111"⟩ (by decide) (by decide)
     (by decide) (by decide) (Or.inl (by decide))⟩

/-! ### C3 -/

/-- C3 counterexample: a repository whose by-id lookup fails with a database
failure (not record-not-found). `GET /api/contacts/1` then answers 404, not
500, so not every persistence error surfaces as 500. -/
theorem c3_counterexample :
    (GetContact
      { create := fun _ s => (Except.error (RepoErr.dbFailure "connection refused"), s)
        findByID := fun _ s => (Except.error (RepoErr.dbFailure "connection refused"), s)
        update := fun _ s => (Except.error (RepoErr.dbFailure "connection refused"), s)
        delete := fun _ s => (Except.error (RepoErr.dbFailure "connection refused"), s)
        list := fun s => (Except.error (RepoErr.dbFailure "connection refused"), s)
        findByEmail := fun _ s => (Except.error (RepoErr.dbFailure "connection refused"), s)
        importContacts := fun _ s => (Except.error (RepoErr.dbFailure "connection refused"), s) }
      "1" ()).1 = ⟨404, ResponseBody.message "Contact not found"⟩ := by
  rfl

/-- C3 amended: a persistence error from `Create`, `Update`, `Delete`,
`List` or `ImportContacts` surfaces as 500 on its endpoint; but an error
from `FindByID` surfaces as 404 (whatever its cause) on GET, PUT and
DELETE `/api/contacts/:id`, and an error from the duplicate-e-mail
`FindByEmail` lookup is swallowed. -/
theorem c3_amended {σ : Type} (repo : ContactRepository σ) (s : σ) :
    (∀ idParam id e s1, parseUint idParam = some id →
      repo.findByID id s = (Except.error e, s1) →
      (GetContact repo idParam s).1 = ⟨404, ResponseBody.message "Contact not found"⟩) ∧
    (∀ idParam id req e s1, parseUint idParam = some id →
      repo.findByID id s = (Except.error e, s1) →
      (UpdateContact repo idParam (some req) s).1 =
        ⟨404, ResponseBody.message "Contact not found"⟩) ∧
    (∀ idParam id e s1, parseUint idParam = some id →
      repo.findByID id s = (Except.error e, s1) →
      (DeleteContact repo idParam s).1 =
        ⟨404, ResponseBody.message "Contact not found"⟩) ∧
    (∀ req e1 s1 e2 s2, (contactOfReq req).Validate = none →
      repo.findByEmail req.email s = (Except.error e1, s1) →
      repo.create ((contactOfReq req).FormatPhoneNumbers) s1 = (Except.error e2, s2) →
      (CreateContact repo (some req) s).1 =
        ⟨500, ResponseBody.message "Failed to create contact"⟩) ∧
    (∀ idParam id req existing s1 fe s2 e s3, parseUint idParam = some id →
      repo.findByID id s = (Except.ok existing, s1) →
      (applyRequest existing req).Validate = none →
      repo.findByEmail req.email s1 = (fe, s2) →
      emailConflict fe ((applyRequest existing req).FormatPhoneNumbers).id = false →
      repo.update ((applyRequest existing req).FormatPhoneNumbers) s2 = (Except.error e, s3) →
      (UpdateContact repo idParam (some req) s).1 =
        ⟨500, ResponseBody.message "Failed to update contact"⟩) ∧
    (∀ idParam id existing s1 e s2, parseUint idParam = some id →
      repo.findByID id s = (Except.ok existing, s1) →
      repo.delete id s1 = (Except.error e, s2) →
      (DeleteContact repo idParam s).1 =
        ⟨500, ResponseBody.message "Failed to delete contact"⟩) ∧
    (∀ e s1, repo.list s = (Except.error e, s1) →
      (ListContacts repo s).1 = ⟨500, ResponseBody.message "Failed to fetch contacts"⟩) ∧
    (∀ rows e s1, repo.importContacts (processCSVRows rows) s = (Except.error e, s1) →
      (ImportContacts repo (some rows) s).1 =
        ⟨500, ResponseBody.message "Failed to import contacts"⟩) := by
  refine ⟨?_, ?_, ?_, ?_, ?_, ?_, ?_, ?_⟩
  · intro idParam id e s1 hid h
    simp [GetContact, hid, h]
  · intro idParam id req e s1 hid h
    simp [UpdateContact, hid, h]
  · intro idParam id e s1 hid h
    simp [DeleteContact, hid, h]
  · intro req e1 s1 e2 s2 hval h1 h2
    simp [CreateContact, hval, h1, h2]
  · intro idParam id req existing s1 fe s2 e s3 hid h1 hval h2 hec h3
    simp [UpdateContact, hid, h1, hval, h2, hec, h3]
  · intro idParam id existing s1 e s2 hid h1 h2
    simp [DeleteContact, hid, h1, h2]
  · intro e s1 h
    simp [ListContacts, h]
  · intro rows e s1 h
    simp [ImportContacts, h]

/-- Witness for C3 amended: the 404 on a failed by-id lookup for GET, PUT
and DELETE, and the 500 of each failing write, at concrete inputs. -/
theorem c3_amended_witness :
    (GetContact failingRepo "1" ()).1 = ⟨404, ResponseBody.message "Contact not found"⟩ ∧
    (UpdateContact failingRepo "1" (some ⟨"John", "Doe", "j@x.com", "2223334444", []⟩) ()).1 =
      ⟨404, ResponseBody.message "Contact not found"⟩ ∧
    (DeleteContact failingRepo "1" ()).1 = ⟨404, ResponseBody.message "Contact not found"⟩ ∧
    (CreateContact brokenWriteRepo (some ⟨"John", "Doe", "j@x.com", "2223334444", []⟩) ()).1 =
      ⟨500, ResponseBody.message "Failed to create contact"⟩ ∧
    (UpdateContact brokenWriteRepo "1" (some ⟨"John", "Doe", "j@x.com", "2223334444", []⟩) ()).1 =
      ⟨500, ResponseBody.message "Failed to update contact"⟩ ∧
    (DeleteContact brokenWriteRepo "1" ()).1 =
      ⟨500, ResponseBody.message "Failed to delete contact"⟩ ∧
    (ListContacts brokenWriteRepo ()).1 =
      ⟨500, ResponseBody.message "Failed to fetch contacts"⟩ ∧
    (ImportContacts brokenWriteRepo (some []) ()).1 =
      ⟨500, ResponseBody.message "Failed to import contacts"⟩ :=
  ⟨(c3_amended failingRepo ()).1 "1" 1 (RepoErr.dbFailure "connection refused") ()
     (by decide) rfl,
   (c3_amended failingRepo ()).2.1 "1" 1 ⟨"John", "Doe", "j@x.com", "2223334444", []⟩
     (RepoErr.dbFailure "connection refused") () (by decide) rfl,
   (c3_amended failingRepo ()).2.2.1 "1" 1 (RepoErr.dbFailure "connection refused") ()
     (by decide) rfl,
   (c3_amended brokenWriteRepo ()).2.2.2.1 ⟨"John", "Doe", "j@x.com", "2223334444", []⟩
     RepoErr.recordNotFound () (RepoErr.dbFailure "disk full") () (by decide) rfl rfl,
   (c3_amended brokenWriteRepo ()).2.2.2.2.1 "1" 1
     ⟨"John", "Doe", "j@x.com", "2223334444", []⟩
     ⟨1, "A", "B", "a@x.com", "1111111111", []⟩ () (Except.error RepoErr.recordNotFound) ()
     (RepoErr.dbFailure "disk full") () (by decide) rfl (by decide) rfl rfl rfl,
   (c3_amended brokenWriteRepo ()).2.2.2.2.2.1 "1" 1
     ⟨1, "A", "B", "a@x.com", "1111111111", []⟩ () (RepoErr.dbFailure "disk full") ()
     (by decide) rfl rfl,
   (c3_amended brokenWriteRepo ()).2.2.2.2.2.2.1 (RepoErr.dbFailure "disk full") () rfl,
   (c3_amended brokenWriteRepo ()).2.2.2.2.2.2.2 [] (RepoErr.dbFailure "disk full") () rfl⟩

/-! ### C5 -/

theorem filter_not_filter_nil (l : List Phone) (id : Nat) :
    (l.filter (fun p => !(p.contactID == id))).filter (fun p => p.contactID == id) = [] := by
  rw [List.filter_eq_nil_iff]
  intro a ha
  simp only [List.mem_filter] at ha
  simp_all

theorem newPhones_filter_self (ps : List Phone) (base id : Nat) :
    (ps.enum.map (fun ip => { ip.2 with id := base + ip.1, contactID := id })).filter
      (fun p => p.contactID == id) =
    ps.enum.map (fun ip => { ip.2 with id := base + ip.1, contactID := id }) := by
  rw [List.filter_eq_self]
  intro a ha
  simp only [List.mem_map] at ha
  obtain ⟨ip, _, rfl⟩ := ha
  simp

theorem newPhones_filter_other (ps : List Phone) (base id : Nat) :
    (ps.enum.map (fun ip => { ip.2 with id := base + ip.1, contactID := id })).filter
      (fun p => !(p.contactID == id)) = [] := by
  rw [List.filter_eq_nil_iff]
  intro a ha
  simp only [List.mem_map] at ha
  obtain ⟨ip, _, rfl⟩ := ha
  simp

theorem enumFrom_map_snd_comp {α : Type} (ps : List Phone) (n : Nat) (f : Phone → α) :
    (List.enumFrom n ps).map (fun ip => f ip.2) = ps.map f := by
  induction ps generalizing n with
  | nil => rfl
  | cons p rest ih => simp [List.enumFrom, ih]

theorem newPhones_map_data (ps : List Phone) (base id : Nat) :
    List.map ((fun p => (p.number, p.type_)) ∘ fun ip =>
      ({ id := base + ip.1, contactID := id, number := ip.2.number, type_ := ip.2.type_ } : Phone))
      ps.enum = ps.map (fun p => (p.number, p.type_)) := by
  have h := enumFrom_map_snd_comp ps 0 (fun p => (p.number, p.type_))
  simpa [List.enum, Function.comp] using h

/-- C5 counterexample: a successful full update stores the primary phone
normalised to digits only, so the stored value differs from the request's
literal `primaryPhone` value. -/
theorem c5_counterexample :
    (UpdateContact gormRepo "1" (some ⟨"Ann", "Bee", "ann@x.com", "123-456-7890", []⟩)
      (DB.mk [⟨1, "A", "B", "a@x.com", "1111111111"⟩] [] 2 1)).1.status = 200 ∧
    (UpdateContact gormRepo "1" (some ⟨"Ann", "Bee", "ann@x.com", "123-456-7890", []⟩)
      (DB.mk [⟨1, "A", "B", "a@x.com", "1111111111"⟩] [] 2 1)).2.contacts =
      [⟨1, "Ann", "Bee", "ann@x.com", "1234567890"⟩] ∧
    ¬ ("1234567890" = "123-456-7890") :=
  ⟨by decide, by decide, by decide⟩

/-- C5 amended: PUT is a full update: on success (validation, e-mail and
phone duplicate checks passing, the contact's own rows excluded from the
duplicate-phone check) the stored row holds the request's names and e-mail
verbatim and the request's primary phone normalised to digits only; the
stored additional phones are exactly the request's list with numbers
normalised to digits only; every previously stored additional phone of the
contact is removed, and the phone rows of other contacts are unchanged. -/
theorem c5_amended (db : DB) (idParam : String) (id : Nat) (req : CreateContactRequest)
    (row : ContactRow)
    (hid : parseUint idParam = some id)
    (hf : db.contacts.find? (fun c => c.id == id) = some row)
    (hval : (applyRequest (preloadPhones db row) req).Validate = none)
    (hec : emailConflict (gormFindByEmail db req.email).1 row.id = false)
    (hp1 : gormCheckDuplicatePhone db
      (((applyRequest (preloadPhones db row) req).FormatPhoneNumbers).primaryPhone)
      row.id = false)
    (hp2 : ((applyRequest (preloadPhones db row) req).FormatPhoneNumbers).additionalPhones.any
      (fun p => gormCheckDuplicatePhone db p.number row.id) = false) :
    (UpdateContact gormRepo idParam (some req) db).1.status = 200 ∧
    (UpdateContact gormRepo idParam (some req) db).2.contacts =
      db.contacts.map (fun c => if c.id == row.id then
        ⟨row.id, req.firstName, req.lastName, req.email, formatPhoneNumber req.primaryPhone⟩
        else c) ∧
    ((UpdateContact gormRepo idParam (some req) db).2.phones.filter
        (fun p => p.contactID == row.id)).map (fun p => (p.number, p.type_)) =
      req.additionalPhones.map (fun p => (formatPhoneNumber p.number, p.type_)) ∧
    (UpdateContact gormRepo idParam (some req) db).2.phones.filter
        (fun p => !(p.contactID == row.id)) =
      db.phones.filter (fun p => !(p.contactID == row.id)) := by
  have hcid : ((applyRequest (preloadPhones db row) req).FormatPhoneNumbers).id = row.id := rfl
  have hfn : ((applyRequest (preloadPhones db row) req).FormatPhoneNumbers).firstName =
      req.firstName := rfl
  have hln : ((applyRequest (preloadPhones db row) req).FormatPhoneNumbers).lastName =
      req.lastName := rfl
  have hem : ((applyRequest (preloadPhones db row) req).FormatPhoneNumbers).email =
      req.email := rfl
  have hpp : ((applyRequest (preloadPhones db row) req).FormatPhoneNumbers).primaryPhone =
      formatPhoneNumber req.primaryPhone := rfl
  have hap : ((applyRequest (preloadPhones db row) req).FormatPhoneNumbers).additionalPhones =
      req.additionalPhones.map (fun p => { p with number := formatPhoneNumber p.number }) := rfl
  have hp2' : ¬ ∃ x ∈ ((applyRequest (preloadPhones db row) req).FormatPhoneNumbers).additionalPhones,
      gormCheckDuplicatePhone db x.number row.id = true := by
    rw [← List.any_eq_true]
    simp [hp2]
  have hp1' : gormCheckDuplicatePhone db (formatPhoneNumber req.primaryPhone) row.id = false :=
    hpp ▸ hp1
  have hp2m : ¬ ∃ x ∈ req.additionalPhones.map
      (fun p => { p with number := formatPhoneNumber p.number }),
      gormCheckDuplicatePhone db x.number row.id = true := by
    rw [← hap]
    exact hp2'
  have hp2r : ¬ ∃ a ∈ req.additionalPhones,
      gormCheckDuplicatePhone db (formatPhoneNumber a.number) row.id = true := by
    rintro ⟨a, ha, hdup⟩
    exact hp2m ⟨{ a with number := formatPhoneNumber a.number },
      List.mem_map_of_mem _ ha, hdup⟩
  refine ⟨?_, ?_, ?_, ?_⟩
  · simp [UpdateContact, hid, gormRepo, gormFindByID, hf, hval, hcid, hec,
      gormFindByEmail_snd, gormUpdate, hp1, hp2']
  · simp [UpdateContact, hid, gormRepo, gormFindByID, hf, hval, hcid, hec,
      gormFindByEmail_snd, gormUpdate, hp1, hp1', hp2', hp2m, hp2r, hfn, hln, hem, hpp]
  · simp [UpdateContact, hid, gormRepo, gormFindByID, hf, hval, hcid, hec,
      gormFindByEmail_snd, gormUpdate, hp1, hp1', hp2', hp2m, hp2r, hap, List.filter_append,
      newPhones_filter_self, filter_not_filter_nil, newPhones_map_data, List.map_map,
      Function.comp]
  · simp [UpdateContact, hid, gormRepo, gormFindByID, hf, hval, hcid, hec,
      gormFindByEmail_snd, gormUpdate, hp1, hp1', hp2', hp2m, hp2r, hap, List.filter_append,
      newPhones_filter_other, List.filter_filter]

/-- Witness for C5 amended: a concrete successful update stores the
normalised phones, replaces the old additional phone of the contact, and
answers 200. -/
theorem c5_amended_witness :
    (UpdateContact gormRepo "1"
      (some ⟨"Ann", "Bee", "ann@x.com", "123-456-7890", [⟨0, 0, "222-333-4444", "work"⟩]⟩)
      (DB.mk [⟨1, "A", "B", "a@x.com", "1111111111"⟩]
        [⟨1, 1, "9998887777", "home"⟩] 2 2)).1.status = 200 ∧
    (UpdateContact gormRepo "1"
      (some ⟨"Ann", "Bee", "ann@x.com", "123-456-7890", [⟨0, 0, "222-333-4444", "work"⟩]⟩)
      (DB.mk [⟨1, "A", "B", "a@x.com", "1111111111"⟩]
        [⟨1, 1, "9998887777", "home"⟩] 2 2)).2.contacts =
      [⟨1, "Ann", "Bee", "ann@x.com", "1234567890"⟩] ∧
    ((UpdateContact gormRepo "1"
      (some ⟨"Ann", "Bee", "ann@x.com", "123-456-7890", [⟨0, 0, "222-333-4444", "work"⟩]⟩)
      (DB.mk [⟨1, "A", "B", "a@x.com", "1111111111"⟩]
        [⟨1, 1, "9998887777", "home"⟩] 2 2)).2.phones.filter
        (fun p => p.contactID == 1)).map (fun p => (p.number, p.type_)) =
      [("2223334444", "work")] ∧
    (UpdateContact gormRepo "1"
      (some ⟨"Ann", "Bee", "ann@x.com", "123-456-7890", [⟨0, 0, "222-333-4444", "work"⟩]⟩)
      (DB.mk [⟨1, "A", "B", "a@x.com", "1111111111"⟩]
        [⟨1, 1, "9998887777", "home"⟩] 2 2)).2.phones.filter
        (fun p => !(p.contactID == 1)) = [] :=
  c5_amended _ "1" 1 _ ⟨1, "A", "B", "a@x.com", "1111111111"⟩
    (by decide) (by decide) (by decide) (by decide) (by decide) (by decide)

/-! ### C8 -/

theorem isValidPhone_false_of_nine_digits (phone : String)
    (h : (phone.toList.filter Char.isDigit).length = 9) : isValidPhone phone = false := by
  unfold isValidPhone
  simp only [h]
  rfl

theorem validate_isSome_of_bad (c : Contact)
    (h : ¬ '@' ∈ c.email.toList ∨ (c.primaryPhone.toList.filter Char.isDigit).length = 9) :
    (Contact.Validate c).isSome = true := by
  rcases h with h | h
  · exact validate_isSome_of_email_invalid c (isValidEmail_false_of_no_at c.email h)
  · exact validate_isSome_of_phone_invalid c (isValidPhone_false_of_nine_digits c.primaryPhone h)

theorem processCSVRows_nil_of_invalid (rows : List CSVContact)
    (h : ∀ r ∈ rows, ((csvToContact r).Validate).isSome = true) :
    processCSVRows rows = [] := by
  induction rows with
  | nil => rfl
  | cons r rest ih =>
      obtain ⟨msg, hm⟩ := Option.isSome_iff_exists.mp (h r (by simp))
      unfold processCSVRows
      rw [List.filterMap_cons, hm]
      exact ih fun r2 hr2 => h r2 (by simp [hr2])

/-- C8: validation rejects every contact whose e-mail contains no `'@'` and
every contact whose primary phone has exactly 9 digit characters; on create
and update that rejection surfaces as a 400 response, and on CSV import the
offending rows are skipped: they never enter the persisted batch, and an
all-offending file leaves the store unchanged. -/
theorem c8_basic_rejections :
    (∀ c : Contact, ¬ '@' ∈ c.email.toList → (Contact.Validate c).isSome = true) ∧
    (∀ c : Contact, (c.primaryPhone.toList.filter Char.isDigit).length = 9 →
      (Contact.Validate c).isSome = true) ∧
    (∀ {σ : Type} (repo : ContactRepository σ) (s : σ) (req : CreateContactRequest),
      (¬ '@' ∈ req.email.toList ∨ (req.primaryPhone.toList.filter Char.isDigit).length = 9) →
      (CreateContact repo (some req) s).1.status = 400) ∧
    (∀ {σ : Type} (repo : ContactRepository σ) (s : σ) (idParam : String) (id : Nat)
      (req : CreateContactRequest) (existing : Contact) (s1 : σ),
      parseUint idParam = some id →
      repo.findByID id s = (Except.ok existing, s1) →
      (¬ '@' ∈ req.email.toList ∨ (req.primaryPhone.toList.filter Char.isDigit).length = 9) →
      (UpdateContact repo idParam (some req) s).1.status = 400) ∧
    (∀ (db : DB) (rows : List CSVContact),
      (∀ r ∈ rows, ¬ '@' ∈ r.email.toList ∨
        (r.primaryPhone.toList.filter Char.isDigit).length = 9) →
      processCSVRows rows = [] ∧
      (ImportContacts gormRepo (some rows) db).2 = db) := by
  refine ⟨?_, ?_, ?_, ?_, ?_⟩
  · intro c h
    exact validate_isSome_of_bad c (Or.inl h)
  · intro c h
    exact validate_isSome_of_bad c (Or.inr h)
  · intro σ repo s req h
    obtain ⟨msg, hm⟩ := Option.isSome_iff_exists.mp (validate_isSome_of_bad (contactOfReq req) h)
    simp [CreateContact, hm]
  · intro σ repo s idParam id req existing s1 hid hfr h
    obtain ⟨msg, hm⟩ :=
      Option.isSome_iff_exists.mp (validate_isSome_of_bad (applyRequest existing req) h)
    simp [UpdateContact, hid, hfr, hm]
  · intro db rows h
    have hnil : processCSVRows rows = [] :=
      processCSVRows_nil_of_invalid rows fun r hr => validate_isSome_of_bad (csvToContact r) (h r hr)
    refine ⟨hnil, ?_⟩
    simp [ImportContacts, gormRepo, gormImportContacts, hnil]

/-- Witness for C8: an e-mail without `'@'` and a 9-digit phone each get
rejected, the create and update answer 400, and an upload of one such row
contributes nothing to the batch. -/
theorem c8_basic_rejections_witness :
    (Contact.Validate ⟨0, "J", "D", "noat.example.com", "2223334444", []⟩).isSome = true ∧
    (Contact.Validate ⟨0, "J", "D", "j@x.com", "123456789", []⟩).isSome = true ∧
    (CreateContact gormRepo (some ⟨"J", "D", "noat.example.com", "2223334444", []⟩)
      (DB.mk [] [] 1 1)).1.status = 400 ∧
    (UpdateContact gormRepo "1" (some ⟨"J", "D", "j@x.com", "123456789", []⟩)
      (DB.mk [⟨1, "A", "B", "a@x.com", "1111111111"⟩] [] 2 1)).1.status = 400 ∧
    processCSVRows [⟨"J", "D", "noat.example.com", "2223334444"⟩] = [] :=
  ⟨c8_basic_rejections.1 _ (by decide),
   c8_basic_rejections.2.1 _ (by decide),
   c8_basic_rejections.2.2.1 gormRepo (DB.mk [] [] 1 1) _ (Or.inl (by decide)),
   c8_basic_rejections.2.2.2.1 gormRepo (DB.mk [⟨1, "A", "B", "a@x.com", "1111111111"⟩] [] 2 1)
     "1" 1 ⟨"J", "D", "j@x.com", "123456789", []⟩
     ⟨1, "A", "B", "a@x.com", "1111111111", []⟩ (DB.mk [⟨1, "A", "B", "a@x.com", "1111111111"⟩] [] 2 1)
     (by decide) rfl (Or.inr (by decide)),
   (c8_basic_rejections.2.2.2.2 (DB.mk [] [] 1 1) [⟨"J", "D", "noat.example.com", "2223334444"⟩]
     (by decide)).1⟩

/-! ### C9 -/

/-- C9 counterexample: a create request whose additionalPhones carry the
same number twice but under different types passes validation — on an empty
store it is answered 201, not 400. -/
theorem c9_counterexample :
    (CreateContact gormRepo
      (some ⟨"John", "Doe", "j@x.com", "2223334444",
        [⟨0, 0, "5556667777", "home"⟩, ⟨0, 0, "5556667777", "work"⟩]⟩)
      (DB.mk [] [] 1 1)).1.status = 201 ∧
    ¬ (CreateContact gormRepo
      (some ⟨"John", "Doe", "j@x.com", "2223334444",
        [⟨0, 0, "5556667777", "home"⟩, ⟨0, 0, "5556667777", "work"⟩]⟩)
      (DB.mk [] [] 1 1)).1.status = 400 ∧
    Contact.Validate (contactOfReq ⟨"John", "Doe", "j@x.com", "2223334444",
      [⟨0, 0, "5556667777", "home"⟩, ⟨0, 0, "5556667777", "work"⟩]⟩) = none :=
  ⟨by decide, by decide, by decide⟩

/-- C9 amended: a create or update request whose additionalPhones list
repeats the same (number, type) pair — duplicates are keyed on
`Number + "-" + Type`, so the same number under two different types is
allowed — fails validation and is answered 400 with a plain message string
(the update having found its contact first). -/
theorem c9_amended {σ : Type} (repo : ContactRepository σ) (s : σ) (req : CreateContactRequest)
    (h : hasDuplicatePhoneKey req.additionalPhones = true) :
    ((CreateContact repo (some req) s).1.status = 400 ∧
      ∃ msg, (CreateContact repo (some req) s).1.body = ResponseBody.message msg) ∧
    (∀ (idParam : String) (id : Nat) (existing : Contact) (s1 : σ),
      parseUint idParam = some id →
      repo.findByID id s = (Except.ok existing, s1) →
      (UpdateContact repo idParam (some req) s).1.status = 400 ∧
      ∃ msg, (UpdateContact repo idParam (some req) s).1.body = ResponseBody.message msg) := by
  constructor
  · obtain ⟨msg, hm⟩ :=
      Option.isSome_iff_exists.mp (validate_isSome_of_dup (contactOfReq req) h)
    exact ⟨by simp [CreateContact, hm], msg, by simp [CreateContact, hm]⟩
  · intro idParam id existing s1 hid hfr
    obtain ⟨msg, hm⟩ :=
      Option.isSome_iff_exists.mp (validate_isSome_of_dup (applyRequest existing req) h)
    exact ⟨by simp [UpdateContact, hid, hfr, hm], msg, by simp [UpdateContact, hid, hfr, hm]⟩

/-- Witness for C9 amended: the same (number, type) pair twice gets 400 on
create and on update of an existing contact. -/
theorem c9_amended_witness :
    ((CreateContact gormRepo
      (some ⟨"John", "Doe", "j@x.com", "2223334444",
        [⟨0, 0, "5556667777", "home"⟩, ⟨0, 0, "5556667777", "home"⟩]⟩)
      (DB.mk [] [] 1 1)).1.status = 400 ∧
      ∃ msg, (CreateContact gormRepo
        (some ⟨"John", "Doe", "j@x.com", "2223334444",
          [⟨0, 0, "5556667777", "home"⟩, ⟨0, 0, "5556667777", "home"⟩]⟩)
        (DB.mk [] [] 1 1)).1.body = ResponseBody.message msg) ∧
    ((UpdateContact gormRepo "1"
      (some ⟨"John", "Doe", "j@x.com", "2223334444",
        [⟨0, 0, "5556667777", "home"⟩, ⟨0, 0, "5556667777", "home"⟩]⟩)
      (DB.mk [⟨1, "A", "B", "a@x.com", "1111111111"⟩] [] 2 1)).1.status = 400 ∧
      ∃ msg, (UpdateContact gormRepo "1"
        (some ⟨"John", "Doe", "j@x.com", "2223334444",
          [⟨0, 0, "5556667777", "home"⟩, ⟨0, 0, "5556667777", "home"⟩]⟩)
        (DB.mk [⟨1, "A", "B", "a@x.com", "1111111111"⟩] [] 2 1)).1.body =
          ResponseBody.message msg) :=
  ⟨(c9_amended gormRepo (DB.mk [] [] 1 1) _ (by decide)).1,
   (c9_amended gormRepo (DB.mk [⟨1, "A", "B", "a@x.com", "1111111111"⟩] [] 2 1) _
      (by decide)).2 "1" 1 ⟨1, "A", "B", "a@x.com", "1111111111", []⟩
      (DB.mk [⟨1, "A", "B", "a@x.com", "1111111111"⟩] [] 2 1) (by decide) rfl⟩

/-! ### C10 -/

theorem formatPhoneNumber_digits (s : String) :
    (formatPhoneNumber s).toList.all Char.isDigit = true := by
  rw [List.all_eq_true]
  intro x hx
  exact (List.mem_filter.mp hx).2

theorem formatPhoneNumber_length (s : String) (h : isValidPhone s = true) :
    10 ≤ (formatPhoneNumber s).length ∧ (formatPhoneNumber s).length ≤ 15 := by
  unfold isValidPhone at h
  simp only [Bool.and_eq_true, decide_eq_true_eq] at h
  exact h

theorem goodRow_of_validate (c : Contact) (hval : c.Validate = none) (cid : Nat) :
    goodContactRow ⟨cid, c.firstName, c.lastName, c.email, formatPhoneNumber c.primaryPhone⟩ := by
  rw [validate_eq_none_iff] at hval
  obtain ⟨h1, h2, h3, h4, -⟩ := hval
  exact ⟨h1, h2, h3, formatPhoneNumber_digits _, (formatPhoneNumber_length _ h4).1,
    (formatPhoneNumber_length _ h4).2⟩

theorem snd_mem_enumFrom {α : Type} :
    ∀ (l : List α) (n : Nat) (ip : Nat × α), ip ∈ List.enumFrom n l → ip.2 ∈ l
  | [], _, _, h => by simp [List.enumFrom] at h
  | a :: rest, n, ip, h => by
      simp only [List.enumFrom, List.mem_cons] at h
      rcases h with rfl | h
      · simp
      · exact List.mem_cons_of_mem _ (snd_mem_enumFrom rest (n + 1) ip h)

theorem mem_formatted_newPhones (c : Contact) (base cid : Nat) (p : Phone)
    (hp : p ∈ ((c.FormatPhoneNumbers).additionalPhones).enum.map
      (fun ip => { ip.2 with id := base + ip.1, contactID := cid })) :
    digitsOnlyPhone p := by
  simp only [List.mem_map] at hp
  obtain ⟨ip, hip, rfl⟩ := hp
  have h2 : ip.2 ∈ (c.FormatPhoneNumbers).additionalPhones :=
    snd_mem_enumFrom _ 0 ip (by simpa [List.enum] using hip)
  simp only [Contact.FormatPhoneNumbers, List.mem_map] at h2
  obtain ⟨q, _, hq2⟩ := h2
  show (ip.2.number).toList.all Char.isDigit = true
  rw [← hq2]
  exact formatPhoneNumber_digits q.number

theorem gormCreate_cases (db : DB) (c : Contact) :
    (∃ e, gormCreate db c = (Except.error e, db)) ∨
      gormCreate db c = (Except.ok (insertedContact db c), insertContact db c) := by
  unfold gormCreate
  split
  · exact Or.inl ⟨_, rfl⟩
  · split
    · exact Or.inl ⟨_, rfl⟩
    · exact Or.inr rfl

theorem gormUpdate_cases (db : DB) (c : Contact) :
    (∃ e, gormUpdate db c = (Except.error e, db)) ∨
      gormUpdate db c =
        (Except.ok
          (Contact.mk c.id c.firstName c.lastName c.email c.primaryPhone
            (c.additionalPhones.enum.map
              (fun ip => { ip.2 with id := db.nextPhoneID + ip.1, contactID := c.id }))),
          DB.mk
            (db.contacts.map (fun r => if r.id == c.id then
              ⟨c.id, c.firstName, c.lastName, c.email, c.primaryPhone⟩ else r))
            (db.phones.filter (fun p => !(p.contactID == c.id)) ++
              c.additionalPhones.enum.map
                (fun ip => { ip.2 with id := db.nextPhoneID + ip.1, contactID := c.id }))
            db.nextContactID
            (db.nextPhoneID + (c.additionalPhones.enum.map
              (fun ip => { ip.2 with id := db.nextPhoneID + ip.1, contactID := c.id })).length)) := by
  unfold gormUpdate
  split
  · exact Or.inl ⟨_, rfl⟩
  · split
    · exact Or.inl ⟨_, rfl⟩
    · exact Or.inr rfl

theorem foldl_insert_mem (cs : List Contact) (db : DB) (row : ContactRow) :
    row ∈ (cs.foldl insertContact db).contacts →
    row ∈ db.contacts ∨
      ∃ c ∈ cs, ∃ cid, row = ⟨cid, c.firstName, c.lastName, c.email, c.primaryPhone⟩ := by
  induction cs generalizing db with
  | nil => exact fun h => Or.inl h
  | cons c rest ih =>
      intro h
      rcases ih _ h with h1 | ⟨c', hc', cid, rfl⟩
      · have h2 : row ∈ db.contacts ∨
            row = ⟨db.nextContactID, c.firstName, c.lastName, c.email, c.primaryPhone⟩ := by
          simpa [insertContact] using h1
        rcases h2 with h2 | rfl
        · exact Or.inl h2
        · exact Or.inr ⟨c, by simp, db.nextContactID, rfl⟩
      · exact Or.inr ⟨c', by simp [hc'], cid, rfl⟩

theorem foldl_insert_phones_mem (cs : List Contact) (db : DB) (p : Phone) :
    p ∈ (cs.foldl insertContact db).phones →
    p ∈ db.phones ∨ ∃ c ∈ cs, ∃ ip ∈ c.additionalPhones.enum, p.number = ip.2.number := by
  induction cs generalizing db with
  | nil => exact fun h => Or.inl h
  | cons c rest ih =>
      intro h
      rcases ih _ h with h1 | ⟨c', hc', ip, hip, hnum⟩
      · have h2 : p ∈ db.phones ∨ ∃ a b, (a, b) ∈ c.additionalPhones.enum ∧
            ({ id := db.nextPhoneID + a, contactID := db.nextContactID, number := b.number,
               type_ := b.type_ } : Phone) = p := by
          simpa [insertContact] using h1
        rcases h2 with h2 | ⟨a, b, hab, rfl⟩
        · exact Or.inl h2
        · exact Or.inr ⟨c, by simp, (a, b), hab, rfl⟩
      · exact Or.inr ⟨c', by simp [hc'], ip, hip, hnum⟩

theorem mem_processCSVRows (rows : List CSVContact) (c : Contact)
    (h : c ∈ processCSVRows rows) :
    ∃ r, (csvToContact r).Validate = none ∧ c = (csvToContact r).FormatPhoneNumbers := by
  rw [processCSVRows_eq_filter] at h
  simp only [List.mem_map, List.mem_filter] at h
  obtain ⟨r, ⟨_, hval⟩, rfl⟩ := h
  exact ⟨r, by simpa using hval, rfl⟩

theorem create_contacts_invariant (db : DB) (req : CreateContactRequest) (row : ContactRow)
    (h : row ∈ (CreateContact gormRepo (some req) db).2.contacts) :
    row ∈ db.contacts ∨ goodContactRow row := by
  cases hval : (contactOfReq req).Validate with
  | some msg =>
      simp [CreateContact, hval] at h
      exact Or.inl h
  | none =>
      cases hfe : db.contacts.find? (fun c => c.email == req.email) with
      | some r0 =>
          simp [CreateContact, hval, gormRepo, gormFindByEmail, hfe] at h
          exact Or.inl h
      | none =>
          rcases gormCreate_cases db ((contactOfReq req).FormatPhoneNumbers) with ⟨e, hcr⟩ | hcr
          · simp [CreateContact, hval, gormRepo, gormFindByEmail, hfe, hcr] at h
            exact Or.inl h
          · simp only [CreateContact, hval, gormRepo, gormFindByEmail, hfe, hcr,
              insertContact] at h
            rcases List.mem_append.mp h with h2 | h2
            · exact Or.inl h2
            · right
              have hrow := List.mem_singleton.mp h2
              rw [hrow]
              exact goodRow_of_validate (contactOfReq req) hval db.nextContactID

theorem create_phones_invariant (db : DB) (req : CreateContactRequest) (p : Phone)
    (h : p ∈ (CreateContact gormRepo (some req) db).2.phones) :
    p ∈ db.phones ∨ digitsOnlyPhone p := by
  cases hval : (contactOfReq req).Validate with
  | some msg =>
      simp [CreateContact, hval] at h
      exact Or.inl h
  | none =>
      cases hfe : db.contacts.find? (fun c => c.email == req.email) with
      | some r0 =>
          simp [CreateContact, hval, gormRepo, gormFindByEmail, hfe] at h
          exact Or.inl h
      | none =>
          rcases gormCreate_cases db ((contactOfReq req).FormatPhoneNumbers) with ⟨e, hcr⟩ | hcr
          · simp [CreateContact, hval, gormRepo, gormFindByEmail, hfe, hcr] at h
            exact Or.inl h
          · simp only [CreateContact, hval, gormRepo, gormFindByEmail, hfe, hcr,
              insertContact] at h
            rcases List.mem_append.mp h with h2 | h2
            · exact Or.inl h2
            · exact Or.inr
                (mem_formatted_newPhones (contactOfReq req) db.nextPhoneID db.nextContactID p h2)

theorem update_contacts_invariant (db : DB) (idParam : String) (req : CreateContactRequest)
    (row : ContactRow) (h : row ∈ (UpdateContact gormRepo idParam (some req) db).2.contacts) :
    row ∈ db.contacts ∨ goodContactRow row := by
  cases hid : parseUint idParam with
  | none =>
      simp [UpdateContact, hid] at h
      exact Or.inl h
  | some id =>
    cases hf : db.contacts.find? (fun c => c.id == id) with
    | none =>
        simp [UpdateContact, hid, gormRepo, gormFindByID, hf] at h
        exact Or.inl h
    | some row0 =>
      cases hval : (applyRequest (preloadPhones db row0) req).Validate with
      | some msg =>
          simp [UpdateContact, hid, gormRepo, gormFindByID, hf, hval] at h
          exact Or.inl h
      | none =>
        cases hec : emailConflict (gormFindByEmail db req.email).1
            ((applyRequest (preloadPhones db row0) req).FormatPhoneNumbers).id with
        | true =>
            simp [UpdateContact, hid, gormRepo, gormFindByID, hf, hval, hec,
              gormFindByEmail_snd] at h
            exact Or.inl h
        | false =>
            rcases gormUpdate_cases db
                ((applyRequest (preloadPhones db row0) req).FormatPhoneNumbers)
              with ⟨e, hup⟩ | hup
            · simp [UpdateContact, hid, gormRepo, gormFindByID, hf, hval, hec,
                gormFindByEmail_snd, hup] at h
              exact Or.inl h
            · simp only [UpdateContact, hid, gormRepo, gormFindByID, hf, hval, hec,
                gormFindByEmail_snd, hup] at h
              rcases List.mem_map.mp h with ⟨r, hr, hrow⟩
              by_cases hcase : (r.id ==
                  ((applyRequest (preloadPhones db row0) req).FormatPhoneNumbers).id) = true
              · rw [if_pos hcase] at hrow
                right
                rw [← hrow]
                exact goodRow_of_validate (applyRequest (preloadPhones db row0) req) hval _
              · rw [if_neg hcase] at hrow
                exact Or.inl (hrow ▸ hr)

theorem update_phones_invariant (db : DB) (idParam : String) (req : CreateContactRequest)
    (p : Phone) (h : p ∈ (UpdateContact gormRepo idParam (some req) db).2.phones) :
    p ∈ db.phones ∨ digitsOnlyPhone p := by
  cases hid : parseUint idParam with
  | none =>
      simp [UpdateContact, hid] at h
      exact Or.inl h
  | some id =>
    cases hf : db.contacts.find? (fun c => c.id == id) with
    | none =>
        simp [UpdateContact, hid, gormRepo, gormFindByID, hf] at h
        exact Or.inl h
    | some row0 =>
      cases hval : (applyRequest (preloadPhones db row0) req).Validate with
      | some msg =>
          simp [UpdateContact, hid, gormRepo, gormFindByID, hf, hval] at h
          exact Or.inl h
      | none =>
        cases hec : emailConflict (gormFindByEmail db req.email).1
            ((applyRequest (preloadPhones db row0) req).FormatPhoneNumbers).id with
        | true =>
            simp [UpdateContact, hid, gormRepo, gormFindByID, hf, hval, hec,
              gormFindByEmail_snd] at h
            exact Or.inl h
        | false =>
            rcases gormUpdate_cases db
                ((applyRequest (preloadPhones db row0) req).FormatPhoneNumbers)
              with ⟨e, hup⟩ | hup
            · simp [UpdateContact, hid, gormRepo, gormFindByID, hf, hval, hec,
                gormFindByEmail_snd, hup] at h
              exact Or.inl h
            · simp only [UpdateContact, hid, gormRepo, gormFindByID, hf, hval, hec,
                gormFindByEmail_snd, hup] at h
              rcases List.mem_append.mp h with h2 | h2
              · exact Or.inl (List.mem_filter.mp h2).1
              · exact Or.inr (mem_formatted_newPhones
                  (applyRequest (preloadPhones db row0) req) db.nextPhoneID
                  ((applyRequest (preloadPhones db row0) req).FormatPhoneNumbers).id p h2)

theorem import_contacts_invariant (db : DB) (rows : List CSVContact) (row : ContactRow)
    (h : row ∈ (ImportContacts gormRepo (some rows) db).2.contacts) :
    row ∈ db.contacts ∨ goodContactRow row := by
  by_cases h0 : processCSVRows rows = []
  · simp [ImportContacts, gormRepo, gormImportContacts, h0] at h
    exact Or.inl h
  · by_cases h1 : batchEmailClash db (processCSVRows rows) = true
    · simp [ImportContacts, gormRepo, gormImportContacts, h0, h1] at h
      exact Or.inl h
    · have h1' : batchEmailClash db (processCSVRows rows) = false := by simpa using h1
      simp [ImportContacts, gormRepo, gormImportContacts, h0, h1'] at h
      rcases foldl_insert_mem _ _ _ h with h2 | ⟨c, hc, cid, rfl⟩
      · exact Or.inl h2
      · right
        obtain ⟨r, hval, rfl⟩ := mem_processCSVRows rows c hc
        exact goodRow_of_validate (csvToContact r) hval cid

theorem import_phones_invariant (db : DB) (rows : List CSVContact) (p : Phone)
    (h : p ∈ (ImportContacts gormRepo (some rows) db).2.phones) :
    p ∈ db.phones ∨ digitsOnlyPhone p := by
  by_cases h0 : processCSVRows rows = []
  · simp [ImportContacts, gormRepo, gormImportContacts, h0] at h
    exact Or.inl h
  · by_cases hcl : batchEmailClash db (processCSVRows rows) = true
    · simp [ImportContacts, gormRepo, gormImportContacts, h0, hcl] at h
      exact Or.inl h
    · have hcl' : batchEmailClash db (processCSVRows rows) = false := by simpa using hcl
      simp [ImportContacts, gormRepo, gormImportContacts, h0, hcl'] at h
      rcases foldl_insert_phones_mem _ _ _ h with h1 | ⟨c, hc, ip, hip, hnum⟩
      · exact Or.inl h1
      · right
        obtain ⟨r, hval, rfl⟩ := mem_processCSVRows rows c hc
        have h2 : ip.2 ∈ ((csvToContact r).FormatPhoneNumbers).additionalPhones :=
          snd_mem_enumFrom _ 0 ip (by simpa [List.enum] using hip)
        simp only [Contact.FormatPhoneNumbers, List.mem_map] at h2
        obtain ⟨q, _, hq2⟩ := h2
        show p.number.toList.all Char.isDigit = true
        rw [hnum, ← hq2]
        exact formatPhoneNumber_digits q.number

/-- C10 counterexample: `Contact.Validate` never checks additional phone
numbers, so a create request whose additional phone has only 2 digits is
accepted (201) and the 2-character number is stored — the stored phone does
not have length between 10 and 15. -/
theorem c10_counterexample :
    (CreateContact gormRepo (some ⟨"John", "Doe", "j@x.com", "2223334444",
      [⟨0, 0, "12", "home"⟩]⟩) (DB.mk [] [] 1 1)).1.status = 201 ∧
    ((CreateContact gormRepo (some ⟨"John", "Doe", "j@x.com", "2223334444",
      [⟨0, 0, "12", "home"⟩]⟩) (DB.mk [] [] 1 1)).2.phones.map (fun p => p.number)) = ["12"] ∧
    ¬ 10 ≤ ("12" : String).length :=
  ⟨by decide, by decide, by decide⟩

/-- C10 amended: every contact row persisted through create, update or the
CSV upload has non-blank trimmed names, an e-mail matching the validation
regex and a digits-only primary phone of length 10–15; every persisted phone row
(the additional phones) has a digits-only number, but its length is NOT
constrained — `Validate` never checks additional phone numbers. -/
theorem c10_amended :
    (∀ (db : DB) (req : CreateContactRequest) (row : ContactRow),
      row ∈ (CreateContact gormRepo (some req) db).2.contacts →
      row ∈ db.contacts ∨ goodContactRow row) ∧
    (∀ (db : DB) (req : CreateContactRequest) (p : Phone),
      p ∈ (CreateContact gormRepo (some req) db).2.phones →
      p ∈ db.phones ∨ digitsOnlyPhone p) ∧
    (∀ (db : DB) (idParam : String) (req : CreateContactRequest) (row : ContactRow),
      row ∈ (UpdateContact gormRepo idParam (some req) db).2.contacts →
      row ∈ db.contacts ∨ goodContactRow row) ∧
    (∀ (db : DB) (idParam : String) (req : CreateContactRequest) (p : Phone),
      p ∈ (UpdateContact gormRepo idParam (some req) db).2.phones →
      p ∈ db.phones ∨ digitsOnlyPhone p) ∧
    (∀ (db : DB) (rows : List CSVContact) (row : ContactRow),
      row ∈ (ImportContacts gormRepo (some rows) db).2.contacts →
      row ∈ db.contacts ∨ goodContactRow row) ∧
    (∀ (db : DB) (rows : List CSVContact) (p : Phone),
      p ∈ (ImportContacts gormRepo (some rows) db).2.phones →
      p ∈ db.phones ∨ digitsOnlyPhone p) :=
  ⟨create_contacts_invariant, create_phones_invariant, update_contacts_invariant,
    update_phones_invariant, import_contacts_invariant, import_phones_invariant⟩

/-- Witness for C10 amended: after a concrete create on an empty store, the
inserted contact row satisfies the invariant and the stored (2-digit)
additional phone is digits-only. -/
theorem c10_amended_witness :
    goodContactRow ⟨1, "John", "Doe", "j@x.com", "2223334444"⟩ ∧
    digitsOnlyPhone ⟨1, 1, "12", "home"⟩ :=
  ⟨(c10_amended.1 (DB.mk [] [] 1 1) ⟨"John", "Doe", "j@x.com", "222-333-4444",
      [⟨0, 0, "1-2", "home"⟩]⟩ ⟨1, "John", "Doe", "j@x.com", "2223334444"⟩
      (by decide)).resolve_left (by decide),
   (c10_amended.2.1 (DB.mk [] [] 1 1) ⟨"John", "Doe", "j@x.com", "222-333-4444",
      [⟨0, 0, "1-2", "home"⟩]⟩ ⟨1, 1, "12", "home"⟩
      (by decide)).resolve_left (by decide)⟩
